import Mathlib

/-
Verification of the daily retrieval-and-resolution engine
(meteostat `Daily` class, `meteostat/interface/daily.py`).

The embedding models pandas tables over exact rationals: a missing value
(NaN) is `none : Option ℚ`.  NaN arithmetic propagates through `Option`
binding, mirroring `NaN + x = NaN`.  The always-true masks
`data['tavg'] != np.NaN` of `adjust_temp` select every row, so the
adjustment is applied unconditionally per row, and missingness is
preserved purely by NaN propagation - the embedding reflects that.
`DataFrame.round(1)` is modelled with round-half-up on rationals; no
statement below depends on the behaviour at exact .05 ties, where
numpy rounds half-to-even.
-/

namespace Meteostat

/-- The ten meteorological variables of the daily schema (the keys of
`Daily._types` in source order). -/
inductive Col
  | tavg | tmin | tmax | prcp | snow | wdir | wspd | wpgt | pres | tsun
deriving DecidableEq, Repr

/-- One observation row's variable payload: ten nullable rationals, one per
column of the daily schema. -/
structure Vals where
  tavg : Option ℚ
  tmin : Option ℚ
  tmax : Option ℚ
  prcp : Option ℚ
  snow : Option ℚ
  wdir : Option ℚ
  wspd : Option ℚ
  wpgt : Option ℚ
  pres : Option ℚ
  tsun : Option ℚ
deriving DecidableEq, Repr

/-- Column projection out of a `Vals` record. -/
def Vals.get : Col → Vals → Option ℚ
  | .tavg, v => v.tavg
  | .tmin, v => v.tmin
  | .tmax, v => v.tmax
  | .prcp, v => v.prcp
  | .snow, v => v.snow
  | .wdir, v => v.wdir
  | .wspd, v => v.wspd
  | .wpgt, v => v.wpgt
  | .pres, v => v.pres
  | .tsun, v => v.tsun

/-- An all-missing payload. -/
def vnone : Vals := ⟨none, none, none, none, none, none, none, none, none, none⟩

/-- One row of the multi-station table, keyed by (station, time).  Time is a
day index (the `1D` bucket of `pd.Grouper(level='time', freq='1D')` on daily
data is the day itself). -/
structure DRow where
  station : String
  time : ℕ
  vals : Vals
deriving DecidableEq, Repr

/-- One row of the involved-stations metadata frame: the station id with its
relevance `score` and `elevation` columns (both nullable, as pandas columns
are). -/
structure MetaRow where
  id : String
  score : Option ℚ
  elevation : Option ℚ
deriving DecidableEq, Repr

/-- A data row after `DataFrame.join` with the stations frame on `station`:
the original row plus the joined `score` and `elevation` columns (null when
the station has no metadata row - pandas left-join semantics). -/
structure JRow where
  station : String
  time : ℕ
  vals : Vals
  score : Option ℚ
  elevation : Option ℚ
deriving DecidableEq, Repr

/-- Rounding to one decimal place, as `DataFrame.round(1)` on a present
value (round-half-up stand-in for numpy rounding; no claim depends on
ties). -/
def round1 (q : ℚ) : ℚ := (round (q * 10) : ℤ) / 10

/-- A rational is a 1-decimal value exactly when it is a fixed point of
`round1`. -/
def IsRounded1 (q : ℚ) : Prop := round1 q = q

instance (q : ℚ) : Decidable (IsRounded1 q) := by
  unfold IsRounded1; infer_instance

/-- A nullable value is rounded to one decimal when its present value is. -/
def IsRounded1Opt (o : Option ℚ) : Prop := ∀ q : ℚ, o = some q → IsRounded1 q

/-- Round every column of a payload, as `DataFrame.round(1)` does (missing
values stay missing). -/
def Vals.round1 (v : Vals) : Vals :=
  ⟨v.tavg.map Meteostat.round1, v.tmin.map Meteostat.round1,
   v.tmax.map Meteostat.round1, v.prcp.map Meteostat.round1,
   v.snow.map Meteostat.round1, v.wdir.map Meteostat.round1,
   v.wspd.map Meteostat.round1, v.wpgt.map Meteostat.round1,
   v.pres.map Meteostat.round1, v.tsun.map Meteostat.round1⟩

/-- First non-null entry of a column, which is what the pandas groupby
aggregation string `'first'` computes per column within a group. -/
def firstNonNull : List (Option ℚ) → Option ℚ
  | [] => none
  | none :: rest => firstNonNull rest
  | some x :: _ => some x

/-- Per-column first-non-null over a group of rows: the semantics of
`.agg('first')` on a grouped frame. -/
def aggFirst (l : List Vals) : Vals :=
  ⟨firstNonNull (l.map (Vals.get .tavg)), firstNonNull (l.map (Vals.get .tmin)),
   firstNonNull (l.map (Vals.get .tmax)), firstNonNull (l.map (Vals.get .prcp)),
   firstNonNull (l.map (Vals.get .snow)), firstNonNull (l.map (Vals.get .wdir)),
   firstNonNull (l.map (Vals.get .wspd)), firstNonNull (l.map (Vals.get .wpgt)),
   firstNonNull (l.map (Vals.get .pres)), firstNonNull (l.map (Vals.get .tsun))⟩

/-- The distinct time buckets of a row set, in increasing time order, as
produced by grouping on `pd.Grouper(level='time', freq='1D')`.  Interior
empty bins (days between min and max with no rows at all) are omitted:
they would carry only missing values and no claim concerns them. -/
def bucketTimes (ts : List ℕ) : List ℕ :=
  List.insertionSort (· ≤ ·) ts.dedup

/-- Metadata lookup by station id (index alignment of the join). -/
def metaLookup (meta : List MetaRow) (st : String) : Option MetaRow :=
  meta.find? (fun m => decide (m.id = st))

/-- The join `self._data.join(stations[['score', 'elevation']], on='station')`
(source lines 211-212): each data row gains the matching station's score and
elevation, or null when the station has no metadata row. -/
def joinMeta (meta : List MetaRow) (data : List DRow) : List JRow :=
  data.map (fun r =>
    ⟨r.station, r.time, r.vals,
     (metaLookup meta r.station).bind (fun m => m.score),
     (metaLookup meta r.station).bind (fun m => m.elevation)⟩)

/-- Elevation-based temperature correction of one value (source lines
178-183): `T + (2/3) * ((elevation - alt) / 100)`, with NaN propagation -
a missing temperature or a missing elevation yields a missing result.  The
filtering masks `data['tavg'] != np.NaN` in the source are true on every
row, so the correction applies to all rows and missing values survive only
through NaN arithmetic. -/
def adjTemp (alt : ℤ) (elev : Option ℚ) (t : Option ℚ) : Option ℚ :=
  match t, elev with
  | some tv, some e => some (tv + (2 / 3) * ((e - (alt : ℚ)) / 100))
  | some _, none => none
  | none, _ => none

/-- The `adjust_temp` helper of `_resolve_point` (source lines 173-185):
corrects the three temperature columns of a row given the joined elevation,
leaving the other seven columns unchanged. -/
def adjustVals (alt : ℤ) (elev : Option ℚ) (v : Vals) : Vals :=
  { v with
    tavg := adjTemp alt elev v.tavg
    tmin := adjTemp alt elev v.tmin
    tmax := adjTemp alt elev v.tmax }

/-- The nearest-method preprocessing (source lines 189-203): with
`adapt_temp` set, join the stations' elevation, adjust the temperature
columns, drop the elevation again and round everything to one decimal;
without it, the data is passed through untouched. -/
def nearestPrepared (meta : List MetaRow) (alt : ℤ) (adaptTemp : Bool)
    (data : List DRow) : List DRow :=
  if adaptTemp then
    data.map (fun r =>
      { r with vals :=
          (adjustVals alt ((metaLookup meta r.station).bind
            (fun m => m.elevation)) r.vals).round1 })
  else
    data

/-- Group a row set by time bucket and take the per-column first non-null
value: `groupby(pd.Grouper(level='time', freq=self._freq)).agg('first')`
(source lines 205-206). -/
def groupFirstP (data : List DRow) : List (ℕ × Vals) :=
  (bucketTimes (data.map (fun r => r.time))).map (fun t =>
    (t, aggFirst ((data.filter (fun r => decide (r.time = t))).map
      (fun r => r.vals))))

/-- The nearest branch of `_resolve_point` (source lines 187-206), before
the sentinel re-keying. -/
def resolveNearest (meta : List MetaRow) (alt : ℤ) (adaptTemp : Bool)
    (data : List DRow) : List (ℕ × Vals) :=
  groupFirstP (nearestPrepared meta alt adaptTemp data)

/-- The weighted-path preprocessing (source lines 210-216): join score and
elevation of the involved stations, then adjust the temperature columns when
`adapt_temp` is set. -/
def weightedAdjusted (meta : List MetaRow) (alt : ℤ) (adaptTemp : Bool)
    (data : List DRow) : List JRow :=
  let joined := joinMeta meta data
  if adaptTemp then
    joined.map (fun r => { r with vals := adjustVals alt r.elevation r.vals })
  else
    joined

/-- Modelled from the spec: the helper `weighted_average` from
`meteostat.utilities.aggregations` is not part of the sources at hand, only
its call site is.  Spec section 4.3: a weighted mean per variable whose
weight per station is its `score`; missing values are excluded from both
numerator and denominator.  A row whose joined score is missing contributes
nothing (the spec prescribes a `MetadataMissing` failure for that situation
instead of a numeric rule); a zero total weight yields a missing value (the
spec leaves the zero-denominator case open in section 9). -/
def wavgCol (rows : List JRow) (get : JRow → Option ℚ) : Option ℚ :=
  let contribs := rows.filterMap (fun r =>
    match get r, r.score with
    | some v, some s => some (v, s)
    | _, _ => none)
  let den := (contribs.map (fun p => p.2)).sum
  if den = 0 then none
  else some (((contribs.map (fun p => p.1 * p.2)).sum) / den)

/-- Modelled from the spec: the one-row output of `weighted_average` on one
time bucket - the score-weighted mean of every variable (`wdir` included;
its value is overwritten by the merge step afterwards, mirroring the
code). -/
def weightedAverage (rows : List JRow) : Vals :=
  ⟨wavgCol rows (fun r => r.vals.tavg), wavgCol rows (fun r => r.vals.tmin),
   wavgCol rows (fun r => r.vals.tmax), wavgCol rows (fun r => r.vals.prcp),
   wavgCol rows (fun r => r.vals.snow), wavgCol rows (fun r => r.vals.wdir),
   wavgCol rows (fun r => r.vals.wspd), wavgCol rows (fun r => r.vals.wpgt),
   wavgCol rows (fun r => r.vals.pres), wavgCol rows (fun r => r.vals.tsun)⟩

/-- The per-bucket first wind direction (source lines 218-221): the `wdir`
column grouped by time bucket and aggregated with `'first'`. -/
def weightedExcluded (rows : List JRow) : List (ℕ × Option ℚ) :=
  (bucketTimes (rows.map (fun r => r.time))).map (fun t =>
    (t, firstNonNull ((rows.filter (fun r => decide (r.time = t))).map
      (fun r => r.vals.wdir))))

/-- The weighted branch through the wind-direction merge (source lines
210-231): per-bucket weighted averages with the independently aggregated
`wdir` column written back over the averaged one, aligned on the time
bucket.  Score and elevation are helper columns never part of `Vals`, so
the drop on line 234 has no separate counterpart here. -/
def weightedMerged (meta : List MetaRow) (alt : ℤ) (adaptTemp : Bool)
    (data : List DRow) : List (ℕ × Vals) :=
  let rows := weightedAdjusted meta alt adaptTemp data
  let excluded := weightedExcluded rows
  let agg := (bucketTimes (rows.map (fun r => r.time))).map (fun t =>
    (t, weightedAverage (rows.filter (fun r => decide (r.time = t)))))
  agg.map (fun p =>
    let w := (excluded.find? (fun q => decide (q.1 = p.1))).bind (fun q => q.2)
    (p.1, { p.2 with wdir := w }))

/-- The weighted branch of `_resolve_point` (source lines 208-234), before
the sentinel re-keying: the merged table rounded to one decimal. -/
def resolveWeighted (meta : List MetaRow) (alt : ℤ) (adaptTemp : Bool)
    (data : List DRow) : List (ℕ × Vals) :=
  (weightedMerged meta alt adaptTemp data).map (fun p => (p.1, p.2.round1))

/-- Number of columns of the data table, so that `self._data.size`
(rows times columns) can be stated faithfully. -/
def numCols : ℕ := 10

/-- The mutable state `_resolve_point` works on: the station index and the
multi-station data table. -/
structure DailyState where
  stations : List String
  data : List DRow
deriving DecidableEq, Repr

/-- `Daily._resolve_point` (source lines 159-240): a no-op when the station
index or the data table is empty (`self._stations.size == 0 or
self._data.size == 0`); otherwise the nearest or weighted branch followed by
the sentinel re-keying of lines 236-240 (`station = 'XXXXX'`, index
(station, time), stations index reduced to the sentinel). -/
def resolvePoint (method : String) (meta : List MetaRow) (alt : ℤ)
    (adaptTemp : Bool) (s : DailyState) : DailyState :=
  if s.stations.length = 0 ∨ s.data.length * numCols = 0 then s
  else
    let out :=
      if method = "nearest" then resolveNearest meta alt adaptTemp s.data
      else resolveWeighted meta alt adaptTemp s.data
    { stations := ["XXXXX"],
      data := out.map (fun p => ⟨"XXXXX", p.1, p.2⟩) }

/-- Column dtypes a pandas frame can carry here: the declared `float64` of
`Daily._types`, or pandas' default `object` dtype of an empty
column-only frame. -/
inductive DType
  | float64
  | object
deriving DecidableEq, Repr

/-- A pandas DataFrame at the loader level: named columns with dtypes, and
the rows. -/
structure Frame where
  columns : List String
  dtypes : List (String × DType)
  rows : List DRow
deriving DecidableEq, Repr

/-- The ten meteorological column names, `[*self._types]` in source order. -/
def metColumns : List String :=
  ["tavg", "tmin", "tmax", "prcp", "snow",
   "wdir", "wspd", "wpgt", "pres", "tsun"]

/-- The declared dtypes of `Daily._types`: every meteorological column is
`float64`. -/
def Daily.types : List (String × DType) := metColumns.map (fun c => (c, DType.float64))

/-- `pd.DataFrame(columns=cols)`: an empty frame with the given columns and
no rows.  Pandas assigns such data-less columns its default `object` dtype,
not the declared numeric types. -/
def pdEmptyFrame (cols : List String) : Frame :=
  { columns := cols,
    dtypes := cols.map (fun c => (c, DType.object)),
    rows := [] }

/-- Dtype of a named column of a frame. -/
def dtypeOf (f : Frame) (c : String) : Option DType :=
  (f.dtypes.find? (fun p => decide (p.1 = c))).map (fun p => p.2)

/-- The date filter of `Daily._load` (source lines 130-140): only when both
`self._start` and `self._end` are set (Python truthiness; `datetime` values
are always truthy, so this is both-not-None) are the rows restricted to
`start <= time <= end` against the time level of the row key; otherwise the
frame passes through unfiltered. -/
def dateFilter (start stop : Option ℕ) (f : Frame) : Frame :=
  match start, stop with
  | some s, some e =>
      { f with rows := f.rows.filter (fun r => decide (s ≤ r.time ∧ r.time ≤ e)) }
  | _, _ => f

/-- Outcome of one `Daily._load` call: the returned frame together with
which effects ran - whether `load_handler` fetched from the remote
endpoint, whether `validate_series` ran, and whether the frame was pickled
to the cache. -/
structure LoadOutcome where
  df : Frame
  remoteFetch : Bool
  validated : Bool
  cacheWrite : Bool
deriving DecidableEq, Repr

/-- `Daily._load` (source lines 89-140) for one station.  `cacheFresh`
stands for `file_in_cache(path, self.max_age)`, `cached` for the pickled
frame at the cache path, `fetched` for what `load_handler` would return and
`validate` for `validate_series`.  On a warm cache
(`max_age > 0 and file_in_cache(...)`) the pickled frame is used as-is;
otherwise the fetched frame is validated and, when `max_age > 0`, written
back to the cache.  Either way the date filter runs last. -/
def Daily.load (maxAge : ℕ) (cacheFresh : Bool) (cached fetched : Frame)
    (validate : Frame → Frame) (start stop : Option ℕ) : LoadOutcome :=
  if 0 < maxAge ∧ cacheFresh = true then
    { df := dateFilter start stop cached,
      remoteFetch := false, validated := false, cacheWrite := false }
  else
    { df := dateFilter start stop (validate fetched),
      remoteFetch := true, validated := true,
      cacheWrite := decide (0 < maxAge) }

/-- `Daily._get_data` (source lines 142-157): with a non-empty station index
the result comes from `processing_handler` (an external collaborator,
passed in as a function); with an empty one it is
`pd.DataFrame(columns=[*self._types])` - and never absent. -/
def Daily.getData (procHandler : List String → Frame)
    (stations : List String) : Frame :=
  if stations.length > 0 then procHandler stations
  else pdEmptyFrame metColumns

/-- Two-station single-bucket example: the higher-scored station misses
`tavg` but has `prcp`. -/
def exRA : DRow := ⟨"AAAAA", 0, { vnone with prcp := some 5 }⟩

/-- Second station of the example: has `tavg`, misses `prcp`. -/
def exRB : DRow := ⟨"BBBBB", 0, { vnone with tavg := some 7 }⟩

/-- Metadata ranking station AAAAA (score 2) above BBBBB (score 1). -/
def exMetaAB : List MetaRow := [⟨"AAAAA", some 2, some 50⟩, ⟨"BBBBB", some 1, some 80⟩]

/-- The row the nearest method produces from `exRA`/`exRB`: values mixed
across the two stations. -/
def exOut1 : DRow := ⟨"XXXXX", 0, { vnone with tavg := some 7, prcp := some 5 }⟩

/-- Weighted example, station AAAAA: tavg 10, wdir 350. -/
def exWA : DRow := ⟨"AAAAA", 0, { vnone with tavg := some 10, wdir := some 350 }⟩

/-- Weighted example, station BBBBB: tavg 13, wdir 10. -/
def exWB : DRow := ⟨"BBBBB", 0, { vnone with tavg := some 13, wdir := some 10 }⟩

/-- The weighted result of `exWA`/`exWB` under `exMetaAB`:
tavg (10*2 + 13*1) / 3 = 11, wdir from the first station. -/
def wOut : Vals := { vnone with tavg := some 11, wdir := some 350 }

/-- Metadata table knowing only station AAAAA. -/
def exMetaA : List MetaRow := [⟨"AAAAA", some 1, some 0⟩]

/-- A row whose `tavg` has two decimal places. -/
def exR1005 : DRow := ⟨"AAAAA", 0, { vnone with tavg := some (201 / 20) }⟩

/-- A one-row frame used as a concrete cache entry. -/
def exFrame : Frame :=
  { columns := metColumns, dtypes := Daily.types,
    rows := [⟨"10637", 3, { vnone with tavg := some 12 }⟩] }

theorem Vals.get_aggFirst (c : Col) (l : List Vals) :
    (aggFirst l).get c = firstNonNull (l.map (Vals.get c)) := by
  cases c <;> rfl

theorem Vals.get_round1 (c : Col) (v : Vals) :
    v.round1.get c = (v.get c).map Meteostat.round1 := by
  cases c <;> rfl

theorem round1_idem (q : ℚ) : round1 (round1 q) = round1 q := by
  unfold round1
  rw [div_mul_cancel₀ _ (by norm_num : (10 : ℚ) ≠ 0), round_intCast]

theorem find_map_self {β : Type} (f : ℕ → β) (t : ℕ) (ts : List ℕ) (ht : t ∈ ts) :
    (ts.map (fun x => (x, f x))).find? (fun q => decide (q.1 = t)) = some (t, f t) := by
  induction ts with
  | nil => cases ht
  | cons a ts ih =>
    by_cases hat : a = t
    · subst hat
      rw [List.map_cons, List.find?_cons_of_pos _ (by simp)]
    · rw [List.map_cons, List.find?_cons_of_neg _ (by simp [hat])]
      rcases List.mem_cons.mp ht with h | h
      · exact absurd h.symm hat
      · exact ih h

theorem resolvePoint_nearest (meta : List MetaRow) (alt : ℤ) (adaptTemp : Bool)
    (s : DailyState)
    (hc : ¬ (s.stations.length = 0 ∨ s.data.length * numCols = 0)) :
    resolvePoint "nearest" meta alt adaptTemp s =
      { stations := ["XXXXX"],
        data := (resolveNearest meta alt adaptTemp s.data).map
          (fun p => ⟨"XXXXX", p.1, p.2⟩) } := by
  unfold resolvePoint
  rw [if_neg hc, if_pos rfl]

theorem resolvePoint_not_nearest (method : String) (meta : List MetaRow)
    (alt : ℤ) (adaptTemp : Bool) (s : DailyState)
    (hm : ¬ method = "nearest")
    (hc : ¬ (s.stations.length = 0 ∨ s.data.length * numCols = 0)) :
    resolvePoint method meta alt adaptTemp s =
      { stations := ["XXXXX"],
        data := (resolveWeighted meta alt adaptTemp s.data).map
          (fun p => ⟨"XXXXX", p.1, p.2⟩) } := by
  unfold resolvePoint
  rw [if_neg hc, if_neg hm]

/-- C5: for a station whose cache entry exists and is younger than
`max_age` (with `max_age > 0`), `_load` deserializes the cached frame and
uses it as-is - it performs no remote fetch, no validation and no cache
write; only the date filter is applied to the cached frame. -/
theorem c5_cache_hit (maxAge : ℕ) (cacheFresh : Bool) (cached fetched : Frame)
    (validate : Frame → Frame) (start stop : Option ℕ)
    (h1 : 0 < maxAge) (h2 : cacheFresh = true) :
    Daily.load maxAge cacheFresh cached fetched validate start stop =
      { df := dateFilter start stop cached,
        remoteFetch := false, validated := false, cacheWrite := false } := by
  unfold Daily.load
  rw [if_pos ⟨h1, h2⟩]

theorem c5_witness :
    Daily.load 1 true exFrame (pdEmptyFrame []) id (some 0) (some 5) =
      { df := exFrame, remoteFetch := false, validated := false,
        cacheWrite := false } :=
  (c5_cache_hit 1 true exFrame (pdEmptyFrame []) id (some 0) (some 5)
    (by decide) rfl).trans (by decide)

/-- C6: when both bounds of the date range are supplied, the rows returned
by `_load` are exactly the rows of the loaded frame (cached on a warm
cache, validated fetch otherwise) whose time satisfies
`start <= t <= end`, each kept unchanged - the filter reads only the time
component of the row key. -/
theorem c6_closed_range (maxAge : ℕ) (cacheFresh : Bool) (cached fetched : Frame)
    (validate : Frame → Frame) (s e : ℕ) (r : DRow) :
    r ∈ (Daily.load maxAge cacheFresh cached fetched validate
        (some s) (some e)).df.rows ↔
      r ∈ (if 0 < maxAge ∧ cacheFresh = true then cached
        else validate fetched).rows ∧ s ≤ r.time ∧ r.time ≤ e := by
  by_cases h : 0 < maxAge ∧ cacheFresh = true
  · unfold Daily.load
    rw [if_pos h, if_pos h]
    simp [dateFilter, List.mem_filter]
  · unfold Daily.load
    rw [if_neg h, if_neg h]
    simp [dateFilter, List.mem_filter]

/-- C10: `_load` filters only when both `self._start` and `self._end` are
set; with at most one bound supplied the full unfiltered frame of the
taken branch is returned. -/
theorem c10_one_bound (maxAge : ℕ) (cacheFresh : Bool) (cached fetched : Frame)
    (validate : Frame → Frame) (start stop : Option ℕ)
    (h : start = none ∨ stop = none) :
    (Daily.load maxAge cacheFresh cached fetched validate start stop).df =
      if 0 < maxAge ∧ cacheFresh = true then cached else validate fetched := by
  have hf : ∀ f : Frame, dateFilter start stop f = f := by
    intro f
    rcases h with h | h
    · subst h; cases stop <;> rfl
    · subst h; cases start <;> rfl
  by_cases hb : 0 < maxAge ∧ cacheFresh = true
  · unfold Daily.load
    rw [if_pos hb, if_pos hb]
    exact hf cached
  · unfold Daily.load
    rw [if_neg hb, if_neg hb]
    exact hf (validate fetched)

theorem c10_witness :
    (Daily.load 2 true exFrame (pdEmptyFrame []) id (some 3) none).df =
      exFrame :=
  (c10_one_bound 2 true exFrame (pdEmptyFrame []) id (some 3) none
    (Or.inr rfl)).trans (by decide)

/-- C8 counterexample: the empty-station-set frame has the declared column
`tavg`, but with pandas' default `object` dtype where `Daily._types`
declares `float64` - the "correct types" part of the claim fails. -/
theorem c8_dtype_cex :
    ("tavg", DType.float64) ∈ Daily.types ∧
    dtypeOf (Daily.getData (fun _ => pdEmptyFrame []) []) "tavg" =
      some DType.object ∧
    DType.object ≠ DType.float64 := by decide

/-- C8 amended: for an empty station-id set, `_get_data` returns (never
`None`) an empty frame carrying exactly the 10 meteorological columns and
no rows - but the columns have pandas' default `object` dtype, not the
declared `float64` types. -/
theorem c8_empty_stations (procHandler : List String → Frame) :
    Daily.getData procHandler [] =
      { columns := metColumns,
        dtypes := metColumns.map (fun c => (c, DType.object)),
        rows := [] } ∧
    metColumns.length = 10 := by
  exact ⟨rfl, rfl⟩

/-- C9: resolution is a no-op when the station index or the data table is
empty - `_resolve_point` returns with both left exactly unchanged, and no
error is possible (the embedding is total). -/
theorem c9_noop (method : String) (meta : List MetaRow) (alt : ℤ)
    (adaptTemp : Bool) (s : DailyState)
    (h : s.stations = [] ∨ s.data = []) :
    resolvePoint method meta alt adaptTemp s = s := by
  have hc : s.stations.length = 0 ∨ s.data.length * numCols = 0 := by
    rcases h with h | h
    · exact Or.inl (by simp [h])
    · exact Or.inr (by simp [h])
  unfold resolvePoint
  rw [if_pos hc]

theorem c9_witness :
    resolvePoint "nearest" exMetaAB 0 true ⟨[], [exRA]⟩ = ⟨[], [exRA]⟩ :=
  c9_noop "nearest" exMetaAB 0 true ⟨[], [exRA]⟩ (Or.inl rfl)

/-- C3: with `adapt_temp` on, a present temperature `T` of a row whose
station has elevation `E` becomes `T + (2/3) * ((E - alt) / 100)` for each
of `tavg`, `tmin`, `tmax`; a missing temperature stays missing for every
elevation (never coerced to zero); and the spec example - station elevation
500, target altitude 100, `tavg = 10.0` - yields `12.7` through the full
nearest pipeline after final rounding. -/
theorem c3_adjust (alt : ℤ) (E : ℚ) (v : Vals) :
    ((adjustVals alt (some E) v).tavg
        = v.tavg.map (fun T => T + (2 / 3) * ((E - (alt : ℚ)) / 100)) ∧
      (adjustVals alt (some E) v).tmin
        = v.tmin.map (fun T => T + (2 / 3) * ((E - (alt : ℚ)) / 100)) ∧
      (adjustVals alt (some E) v).tmax
        = v.tmax.map (fun T => T + (2 / 3) * ((E - (alt : ℚ)) / 100))) ∧
    (∀ elev : Option ℚ,
      (v.tavg = none → (adjustVals alt elev v).tavg = none) ∧
      (v.tmin = none → (adjustVals alt elev v).tmin = none) ∧
      (v.tmax = none → (adjustVals alt elev v).tmax = none)) ∧
    (resolvePoint "nearest" [⟨"AAAAA", some 1, some 500⟩] 100 true
        ⟨["AAAAA"], [⟨"AAAAA", 0, { vnone with tavg := some 10 }⟩]⟩).data.map
      (fun r => r.vals.tavg) = [some (127 / 10)] := by
  refine ⟨⟨?_, ?_, ?_⟩, ?_, ?_⟩
  · cases h : v.tavg <;> simp [adjustVals, adjTemp, h]
  · cases h : v.tmin <;> simp [adjustVals, adjTemp, h]
  · cases h : v.tmax <;> simp [adjustVals, adjTemp, h]
  · intro elev
    refine ⟨fun h => ?_, fun h => ?_, fun h => ?_⟩ <;>
      cases elev <;> simp [adjustVals, adjTemp, h]
  · simp only [resolvePoint, resolveNearest, nearestPrepared, groupFirstP,
      bucketTimes, aggFirst, adjustVals, adjTemp, metaLookup, joinMeta,
      Vals.round1, round1, vnone, firstNonNull, numCols, Vals.get,
      List.map, List.filter, List.dedup, List.insertionSort, List.find?,
      List.pwFilter, List.orderedInsert]
    norm_num [round_eq]

theorem c3_witness :
    (adjustVals 100 (some 500) { vnone with tavg := some 10 }).tavg =
      some (38 / 3) ∧
    (adjustVals 100 (some 500) vnone).tavg = none := by
  constructor
  · exact ((c3_adjust 100 500 { vnone with tavg := some 10 }).1.1).trans
      (by norm_num [vnone])
  · exact ((c3_adjust 100 500 vnone).2.1 (some 500)).1 rfl

/-- C1 counterexample: nearest method, one bucket, station AAAAA scored
above BBBBB and first in the data.  AAAAA has no `tavg` but a `prcp`; the
resolved row takes `tavg = 7` from BBBBB while keeping `prcp = 5` from
AAAAA - per-variable mixing, and `tavg` differs from the highest-scored
station's (missing) value, contradicting wholesale selection. -/
theorem c1_mixing_cex :
    (resolvePoint "nearest" exMetaAB 0 false
        ⟨["AAAAA", "BBBBB"], [exRA, exRB]⟩).data = [exOut1] ∧
    exRA.station = "AAAAA" ∧ exRB.station = "BBBBB" ∧
    metaLookup exMetaAB "AAAAA" = some ⟨"AAAAA", some 2, some 50⟩ ∧
    metaLookup exMetaAB "BBBBB" = some ⟨"BBBBB", some 1, some 80⟩ ∧
    exRA.vals.tavg = none ∧ exOut1.vals.tavg = some 7 ∧
    exOut1.vals.tavg ≠ exRA.vals.tavg ∧
    exOut1.vals.prcp = exRA.vals.prcp := by decide

/-- C1 amended: in the nearest method every resolved row carries the
sentinel station id, and each variable independently equals the first
non-null value of that variable among the bucket's (elevation/temperature
adjusted and pre-rounded, when `adapt_temp` is set) rows in station order -
the highest-scored station supplies a variable only where its own value is
present; otherwise the next station's value is used for that variable. -/
theorem c1_first_non_null (meta : List MetaRow) (alt : ℤ) (adaptTemp : Bool)
    (s : DailyState) (h1 : s.stations ≠ []) (h2 : s.data ≠ []) (r : DRow)
    (hr : r ∈ (resolvePoint "nearest" meta alt adaptTemp s).data) :
    r.station = "XXXXX" ∧ ∀ c : Col,
      r.vals.get c = firstNonNull
        (((nearestPrepared meta alt adaptTemp s.data).filter
          (fun x => decide (x.time = r.time))).map (fun x => x.vals.get c)) := by
  have hc : ¬ (s.stations.length = 0 ∨ s.data.length * numCols = 0) := by
    rintro (hc | hc)
    · exact h1 (List.length_eq_zero.mp hc)
    · rcases Nat.mul_eq_zero.mp hc with hc | hc
      · exact h2 (List.length_eq_zero.mp hc)
      · simp [numCols] at hc
  rw [resolvePoint_nearest meta alt adaptTemp s hc] at hr
  simp only [List.mem_map] at hr
  obtain ⟨p, hp, rfl⟩ := hr
  unfold resolveNearest groupFirstP at hp
  simp only [List.mem_map] at hp
  obtain ⟨t, ht, rfl⟩ := hp
  refine ⟨rfl, fun c => ?_⟩
  rw [Vals.get_aggFirst]
  simp [List.map_map, Function.comp_def]

theorem c1_witness :
    exOut1.vals.get Col.tavg = firstNonNull
      (((nearestPrepared exMetaAB 0 false [exRA, exRB]).filter
        (fun x => decide (x.time = exOut1.time))).map
          (fun x => x.vals.get Col.tavg)) :=
  (c1_first_non_null exMetaAB 0 false ⟨["AAAAA", "BBBBB"], [exRA, exRB]⟩
    (by decide) (by decide) exOut1 (by decide)).2 Col.tavg

theorem weightedEval_ex :
    resolveWeighted exMetaAB 0 false [exWA, exWB] = [((0 : ℕ), wOut)] := by
  have hA : metaLookup exMetaAB "AAAAA" =
      some ⟨"AAAAA", some 2, some 50⟩ := by decide
  have hB : metaLookup exMetaAB "BBBBB" =
      some ⟨"BBBBB", some 1, some 80⟩ := by decide
  norm_num [resolveWeighted, weightedMerged, weightedAdjusted,
    weightedExcluded, weightedAverage, wavgCol, joinMeta, hA, hB,
    bucketTimes, firstNonNull, Vals.round1, round1, vnone, wOut,
    exWA, exWB, List.dedup, List.insertionSort, List.find?,
    List.pwFilter, List.orderedInsert, List.filterMap, round_eq]

/-- C2 counterexample: nearest method without `adapt_temp` - the resolved
series passes the two-decimal input `10.05` through unrounded, so not
every numeric output field is rounded to one decimal place. -/
theorem c2_unrounded_cex :
    (resolvePoint "nearest" [] 0 false ⟨["AAAAA"], [exR1005]⟩).data.map
      (fun r => r.vals.tavg) = [some (201 / 20)] ∧
    ¬ IsRounded1 (201 / 20) := by
  constructor
  · norm_num [resolvePoint, resolveNearest, nearestPrepared, groupFirstP,
      bucketTimes, aggFirst, firstNonNull, Vals.get, numCols, exR1005,
      vnone, List.dedup, List.insertionSort, List.pwFilter,
      List.orderedInsert]
  · norm_num [IsRounded1, round1, round_eq]

/-- C2 amended: rounding to one decimal is applied after the per-bucket
aggregation in the weighted method (every output value is the rounding of
the merged aggregate, hence 1-decimal); in the nearest method rounding
happens before the aggregation step when `adapt_temp` is enabled (the
aggregation consumes already-rounded rows), and no rounding at all is
applied when `adapt_temp` is disabled. -/
theorem c2_round_placement :
    (∀ (meta : List MetaRow) (alt : ℤ) (adaptTemp : Bool) (data : List DRow)
        (t : ℕ) (v : Vals),
      (t, v) ∈ resolveWeighted meta alt adaptTemp data →
        (∃ w : Vals, (t, w) ∈ weightedMerged meta alt adaptTemp data ∧
          v = w.round1) ∧
        ∀ c : Col, IsRounded1Opt (v.get c)) ∧
    (∀ (meta : List MetaRow) (alt : ℤ) (data : List DRow),
      resolveNearest meta alt true data =
        groupFirstP (nearestPrepared meta alt true data) ∧
      ∀ r ∈ nearestPrepared meta alt true data, ∀ c : Col,
        IsRounded1Opt (r.vals.get c)) ∧
    (∀ (meta : List MetaRow) (alt : ℤ) (data : List DRow),
      resolveNearest meta alt false data = groupFirstP data) := by
  refine ⟨?_, ?_, ?_⟩
  · intro meta alt adaptTemp data t v hv
    unfold resolveWeighted at hv
    simp only [List.mem_map] at hv
    obtain ⟨p, hp, heq⟩ := hv
    rw [Prod.mk.injEq] at heq
    obtain ⟨rfl, rfl⟩ := heq
    refine ⟨⟨p.2, hp, rfl⟩, fun c q hq => ?_⟩
    rw [Vals.get_round1] at hq
    obtain ⟨q0, hq0, rfl⟩ := Option.map_eq_some'.mp hq
    exact round1_idem q0
  · intro meta alt data
    refine ⟨rfl, fun r hr c q hq => ?_⟩
    unfold nearestPrepared at hr
    rw [if_pos rfl] at hr
    simp only [List.mem_map] at hr
    obtain ⟨a, _, rfl⟩ := hr
    have hq2 : (Vals.round1 (adjustVals alt
        ((metaLookup meta a.station).bind (fun m => m.elevation))
          a.vals)).get c = some q := hq
    rw [Vals.get_round1] at hq2
    obtain ⟨q0, hq0, rfl⟩ := Option.map_eq_some'.mp hq2
    exact round1_idem q0
  · intro meta alt data
    rfl

theorem c2_witness :
    IsRounded1 (11 : ℚ) :=
  (c2_round_placement.1 exMetaAB 0 false [exWA, exWB] 0 wOut
    (by rw [weightedEval_ex]; exact List.mem_singleton.mpr rfl)).2
    Col.tavg 11 rfl

/-- C4: in the weighted method the wind direction of every resolved bucket
is not the weighted mean but the per-bucket first (non-null) wind
direction of the adjusted rows - the same `'first'` aggregation the
nearest method uses - merged back by time bucket, with only the final
1-decimal rounding applied on top. -/
theorem c4_wdir_first (meta : List MetaRow) (alt : ℤ) (adaptTemp : Bool)
    (data : List DRow) (t : ℕ) (v : Vals)
    (h : (t, v) ∈ resolveWeighted meta alt adaptTemp data) :
    v.wdir = (firstNonNull
      (((weightedAdjusted meta alt adaptTemp data).filter
        (fun r => decide (r.time = t))).map
          (fun r => r.vals.wdir))).map round1 := by
  unfold resolveWeighted at h
  simp only [List.mem_map] at h
  obtain ⟨p, hp, heq⟩ := h
  rw [Prod.mk.injEq] at heq
  obtain ⟨rfl, rfl⟩ := heq
  unfold weightedMerged at hp
  simp only [List.mem_map] at hp
  obtain ⟨q, hq, heq2⟩ := hp
  obtain ⟨t0, ht0, rfl⟩ := hq
  subst heq2
  have hfind := find_map_self
    (fun u => firstNonNull (((weightedAdjusted meta alt adaptTemp data).filter
      (fun r => decide (r.time = u))).map (fun r => r.vals.wdir))) t0
    (bucketTimes ((weightedAdjusted meta alt adaptTemp data).map
      (fun r => r.time))) ht0
  simp [Vals.round1, weightedExcluded, hfind]

theorem c4_witness :
    wOut.wdir = (firstNonNull
      (((weightedAdjusted exMetaAB 0 false [exWA, exWB]).filter
        (fun r => decide (r.time = 0))).map
          (fun r => r.vals.wdir))).map round1 :=
  c4_wdir_first exMetaAB 0 false [exWA, exWB] 0 wOut
    (by rw [weightedEval_ex]; exact List.mem_singleton.mpr rfl)

/-- C7: with station BBBBB present in the data but absent from the
metadata, the join silently yields a null score and elevation for its rows
and point resolution completes normally, producing a resolved row - no
`MetadataMissing` (or any other) failure exists in the code. -/
theorem c7_silent_null :
    (joinMeta exMetaA [exWA, exWB]).map (fun r => (r.station, r.score)) =
      [("AAAAA", some (1 : ℚ)), ("BBBBB", (none : Option ℚ))] ∧
    (resolvePoint "weighted" exMetaA 0 false
        ⟨["AAAAA", "BBBBB"], [exWA, exWB]⟩).data =
      [⟨"XXXXX", 0, { vnone with tavg := some 10, wdir := some 350 }⟩] := by
  constructor
  · decide
  · rw [resolvePoint_not_nearest "weighted" exMetaA 0 false
      ⟨["AAAAA", "BBBBB"], [exWA, exWB]⟩ (by decide) (by decide)]
    have hA : metaLookup exMetaA "AAAAA" =
        some ⟨"AAAAA", some 1, some 0⟩ := by decide
    have hB : metaLookup exMetaA "BBBBB" = none := by decide
    norm_num [resolveWeighted, weightedMerged, weightedAdjusted,
      weightedExcluded, weightedAverage, wavgCol, joinMeta, hA, hB,
      bucketTimes, firstNonNull, Vals.round1, round1, vnone,
      exWA, exWB, List.dedup, List.insertionSort, List.find?,
      List.pwFilter, List.orderedInsert, List.filterMap, round_eq]

end Meteostat
